import Mathlib

/-!
Verification of the practice-exercise Classifier & Question Builder of
`sushichef.py` (class `GoogleGarageDigitalChef`).

The embedding models the classifier core — the type-keyed dispatch in
`add_lesson_practice` (lines 229-242), the three question builders
`add_a_multiple_select_question` (260-267), `add_a_single_select_question`
(269-279), `add_multiple_single_select_questions` (281-290) — and the
exercise-node creation (lines 244-258).

Modelling conventions:
* Python values that may raise are embedded as `Except PyError _`; an
  uncaught exception is `Except.error`.
* JSON option dicts are `Opt`; an `Option String` field with value `none`
  models an absent key (the source data never carries JSON `null`).
* Python's dynamic `practice_data` dict is `PracticeData`; its single
  `options` key is read as a flat option list (`options`) by the one-question
  branches and as a list of sub-question dicts (`subQuestions`) by the
  `text-drawer` / `boolean-selector` branch, mirroring the two shapes that
  key takes in the source payloads.
* Correct-option indices arrive from JSON as numbers or strings; `JIdx`
  covers both and `pyInt` is Python's `int(...)` on them.
* `pyGet l i` is Python list indexing `l[i]` (negative indices wrap,
  out-of-range raises `IndexError`).
* `LOGGER.error(...)` calls are modelled as emitted `Diag` values carrying
  their severity; raising is distinct (the `Except.error` channel).
-/

namespace Sushichef

/-- A Python exception kind, as raised by the modelled code paths. -/
inductive PyError where
  | keyError (k : String)
  | attributeError (msg : String)
  | indexError
  | valueError (s : String)
  deriving Repr, DecidableEq

/-- A JSON correct-option index as it appears in the payload: a number or a
string serialization. -/
inductive JIdx where
  | num (i : Int)
  | str (s : String)
  deriving Repr, DecidableEq

/-- Decimal-numeral parsing on a character list: `some n` iff the list is
non-empty and all digits. -/
def charsDigits? (cs : List Char) : Option ℕ :=
  if cs ≠ [] ∧ cs.all Char.isDigit = true then
    some (cs.foldl (fun n c => 10 * n + (c.toNat - Char.toNat '0')) 0)
  else none

/-- Python `int(...)` on the characters of a string: an optional leading
minus sign followed by decimal digits; anything else fails. -/
def pyIntOfChars (cs : List Char) : Option Int :=
  if cs.head? = some '-' then (charsDigits? cs.tail).map (fun n => -(n : Int))
  else (charsDigits? cs).map (fun n => (n : Int))

/-- Python `int(x)` on a JSON index value: numbers pass through, strings are
parsed as (optionally negated) decimal numerals, anything else raises
`ValueError`. -/
def pyInt : JIdx → Except PyError Int
  | JIdx.num i => Except.ok i
  | JIdx.str s =>
    match pyIntOfChars s.data with
    | some i => Except.ok i
    | none => Except.error (PyError.valueError s)

/-- Python list indexing `l[i]`: zero-based, negative indices count from the
end, out of range raises `IndexError`. -/
def pyGet {α : Type} (l : List α) (i : Int) : Except PyError α :=
  if h : 0 ≤ i ∧ i < l.length then
    Except.ok (l.get ⟨i.toNat, by omega⟩)
  else if h2 : -(l.length : Int) ≤ i ∧ i < 0 then
    Except.ok (l.get ⟨((l.length : Int) + i).toNat, by omega⟩)
  else
    Except.error PyError.indexError

/-- A Python list comprehension / loop that can raise: apply `f` to each
element left to right, propagating the first exception. -/
def mapE {α β : Type} (f : α → Except PyError β) : List α → Except PyError (List β)
  | [] => Except.ok []
  | a :: as =>
    match f a with
    | Except.error e => Except.error e
    | Except.ok b =>
      match mapE f as with
      | Except.error e => Except.error e
      | Except.ok bs => Except.ok (b :: bs)

/-- An option entry of a practice payload (`{ text, value, answer }`); a
`none` field is an absent key. -/
structure Opt where
  text : Option String
  value : Option String
  answer : Option String
  deriving Repr, DecidableEq

/-- A sub-question entry of a `text-drawer` / `boolean-selector` payload:
its own id, prompt text, nested option list and correct-option index. -/
structure SubQ where
  id : String
  text : String
  options : List Opt
  correctOption : JIdx
  deriving Repr, DecidableEq

/-- The practice-activity payload (`practice_data`). The source's single
dynamic `options` key is split by shape: `options` for the flat option-dict
list, `subQuestions` for the sub-question list consumed by the
multi-single-question branch. -/
structure PracticeData where
  options : List Opt
  subQuestions : List SubQ
  correctOptions : List JIdx
  correctOption : JIdx
  unit : Option String
  deriving Repr, DecidableEq

/-- Which ricecooker question class a built question is. -/
inductive QKind where
  | singleSelect
  | multipleSelect
  deriving Repr, DecidableEq

/-- A built question node (`SingleSelectQuestion` / `MultipleSelectQuestion`):
for a single-select question `correctAnswers` is the singleton of its
`correct_answer` argument. -/
structure Question where
  id : String
  question : String
  allAnswers : List String
  correctAnswers : List String
  kind : QKind
  deriving Repr, DecidableEq

/-- Severity of a logged diagnostic (`LOGGER.<level>`). -/
inductive Level where
  | info
  | warning
  | error
  deriving Repr, DecidableEq

/-- A logged diagnostic record. -/
structure Diag where
  level : Level
  message : String
  deriving Repr, DecidableEq

/-- Python `str.replace` on character lists: replace non-overlapping
occurrences of `pat` left to right. The fuel argument (instantiated with the
input length) only makes the recursion structural; with a non-empty pattern
every step consumes at least one character, so it never runs out. -/
def charsReplaceAux (pat rep : List Char) : ℕ → List Char → List Char
  | 0, cs => cs
  | _ + 1, [] => []
  | fuel + 1, c :: cs =>
    if pat.isPrefixOf (c :: cs) then
      rep ++ charsReplaceAux pat rep fuel (List.drop (pat.length - 1) cs)
    else
      c :: charsReplaceAux pat rep fuel cs

/-- Python `s.replace(pat, rep)` for a non-empty pattern (the classifier only
ever uses the patterns `"<p>"` and `"</p>"`). -/
def pyReplace (s pat rep : String) : String :=
  if pat.data = [] then s
  else ⟨charsReplaceAux pat.data rep.data s.data.length s.data⟩

/-- `.replace("<p>", "").replace("</p>", "")` — the only markup stripping
performed anywhere in the classifier. -/
def strip (s : String) : String :=
  pyReplace (pyReplace s "<p>" "") "</p>" ""

/-- Line 261: `choice["text"].replace(...)` — the text key must be present,
then the paragraph markup is stripped. -/
def multiAnswerOf (choice : Opt) : Except PyError String :=
  match choice.text with
  | some t => Except.ok (strip t)
  | none => Except.error (PyError.keyError "text")

/-- Line 275: `"{value} {unit}".format(value=choice["value"], unit=question["unit"])`. -/
def valueUnitOf (question : PracticeData) (choice : Opt) : Except PyError String :=
  match choice.value with
  | none => Except.error (PyError.keyError "value")
  | some v =>
    match question.unit with
    | none => Except.error (PyError.keyError "unit")
    | some u => Except.ok (v ++ " " ++ u)

/-- Lines 272-275: `choice["text"]` when `choice.get("text")` is truthy
(present and non-empty), otherwise the `"<value> <unit>"` string. -/
def singleAnswerOf (question : PracticeData) (choice : Opt) : Except PyError String :=
  match choice.text with
  | some t => if t = "" then valueUnitOf question choice else Except.ok t
  | none => valueUnitOf question choice

/-- Python `a or b` on two optional strings: `a` when it is truthy (present
and non-empty), else `b`. -/
def pyOrStr (a b : Option String) : Option String :=
  match a with
  | some s => if s = "" then b else some s
  | none => b

/-- Line 285: `(choice.get("answer") or choice.get("text")).replace(...)` —
raises `AttributeError` when both are falsy and the result is `None`. -/
def subAnswerOf (choice : Opt) : Except PyError String :=
  match pyOrStr choice.answer choice.text with
  | some s => Except.ok (strip s)
  | none => Except.error (PyError.attributeError "NoneType has no attribute replace")

/-- Lines 260-267: `add_a_multiple_select_question`. -/
def add_a_multiple_select_question (question : PracticeData) (description practice_id : String) :
    Except PyError Question :=
  match mapE multiAnswerOf question.options with
  | Except.error e => Except.error e
  | Except.ok all_answers =>
    match mapE (fun c =>
        match pyInt c with
        | Except.error e => Except.error e
        | Except.ok i => pyGet all_answers i) question.correctOptions with
    | Except.error e => Except.error e
    | Except.ok correct_answers =>
      Except.ok { id := practice_id ++ "-question", question := description,
                  allAnswers := all_answers, correctAnswers := correct_answers,
                  kind := QKind.multipleSelect }

/-- Lines 269-279: `add_a_single_select_question`. -/
def add_a_single_select_question (question : PracticeData) (description practice_id : String) :
    Except PyError Question :=
  match mapE (singleAnswerOf question) question.options with
  | Except.error e => Except.error e
  | Except.ok all_answers =>
    match pyInt question.correctOption with
    | Except.error e => Except.error e
    | Except.ok i =>
      match pyGet all_answers i with
      | Except.error e => Except.error e
      | Except.ok ans =>
        Except.ok { id := practice_id ++ "-question", question := description,
                    allAnswers := all_answers, correctAnswers := [ans],
                    kind := QKind.singleSelect }

/-- Lines 283-288: the per-sub-question body of
`add_multiple_single_select_questions`. -/
def buildSubQuestion (description practice_id : String) (question : SubQ) :
    Except PyError Question :=
  match mapE subAnswerOf question.options with
  | Except.error e => Except.error e
  | Except.ok all_answers =>
    match pyInt question.correctOption with
    | Except.error e => Except.error e
    | Except.ok i =>
      match pyGet all_answers i with
      | Except.error e => Except.error e
      | Except.ok ans =>
        Except.ok { id := practice_id ++ "-question-" ++ question.id,
                    question := description ++ "\n" ++ question.text,
                    allAnswers := all_answers, correctAnswers := [ans],
                    kind := QKind.singleSelect }

/-- Lines 281-290: `add_multiple_single_select_questions`. -/
def add_multiple_single_select_questions (questions : List SubQ)
    (description practice_id : String) : Except PyError (List Question) :=
  mapE (buildSubQuestion description practice_id) questions

/-- Line 229: the multiple-select type vocabulary. -/
def multiTypes : List String :=
  ["select-right", "switches-text", "strike-through", "tag-cloud"]

/-- Line 233: the single-select type vocabulary. -/
def singleTypes : List String :=
  ["swipe-selector", "twitter-draganddrop", "image-slider"]

/-- Line 237: the multiple-single-select type vocabulary. -/
def multiSingleTypes : List String :=
  ["text-drawer", "boolean-selector"]

/-- Lines 229-242: the Classifier — the type-keyed dispatch of
`add_lesson_practice`. Result: `none` with one error-level diagnostic for an
unrecognized type (the early `return`), `some questions` for a recognized
one; exceptions from the builders propagate. -/
def classify_practice (practice_type : String) (practice_data : PracticeData)
    (description practice_id url : String) :
    Except PyError (Option (List Question) × List Diag) :=
  if practice_type ∈ multiTypes then
    match add_a_multiple_select_question practice_data description practice_id with
    | Except.error e => Except.error e
    | Except.ok q => Except.ok (some [q], [])
  else if practice_type ∈ singleTypes then
    match add_a_single_select_question practice_data description practice_id with
    | Except.error e => Except.error e
    | Except.ok q => Except.ok (some [q], [])
  else if practice_type ∈ multiSingleTypes then
    match add_multiple_single_select_questions practice_data.subQuestions description practice_id with
    | Except.error e => Except.error e
    | Except.ok qs => Except.ok (some qs, [])
  else
    Except.ok (none, [⟨Level.error, "Type " ++ practice_type ++ " hasn't been analyzed: " ++ url⟩])

/-- The lesson context `add_lesson_practice` closes over: the lesson node's
display title and stable source id. -/
structure LessonCtx where
  title : String
  source_id : String
  deriving Repr, DecidableEq

/-- Line 226: `practice_id = "{}-practice".format(lesson.source_id)`. -/
def practiceIdOf (lesson : LessonCtx) : String :=
  lesson.source_id ++ "-practice"

/-- The `ExerciseNode` fields the claims are about (lines 246-257). -/
structure ExerciseNode where
  source_id : String
  title : String
  master_model : String
  randomize : Bool
  questions : List Question
  deriving Repr, DecidableEq

/-- Lines 226-258 of `add_lesson_practice`, after page parsing: classify the
practice payload, then either return early (unrecognized type: no exercise)
or build the exercise node whose source id is `"<lesson title> Practice"`
(line 245). -/
def add_lesson_practice (lesson : LessonCtx) (url title : String)
    (practice_type : String) (practice_data : PracticeData) (description : String) :
    Except PyError (Option ExerciseNode × List Diag) :=
  match classify_practice practice_type practice_data description (practiceIdOf lesson) url with
  | Except.error e => Except.error e
  | Except.ok (none, ds) => Except.ok (none, ds)
  | Except.ok (some qs, ds) =>
    Except.ok (some { source_id := lesson.title ++ " Practice", title := title,
                      master_model := "do_all", randomize := false, questions := qs }, ds)

/-- One lesson's practice-processing inputs, as produced by `parse_module`'s
loop before it calls `add_lesson_practice`. -/
structure LessonPractice where
  lesson : LessonCtx
  url : String
  title : String
  practice_type : String
  practice_data : PracticeData
  description : String
  deriving Repr, DecidableEq

/-- The `parse_module` lesson loop (lines 162-175), restricted to practice
handling: process lessons in order, collecting exercise nodes and
diagnostics; an uncaught exception aborts the remainder of the run. -/
def processPractices : List LessonPractice → Except PyError (List ExerciseNode × List Diag)
  | [] => Except.ok ([], [])
  | l :: ls =>
    match add_lesson_practice l.lesson l.url l.title l.practice_type l.practice_data l.description with
    | Except.error e => Except.error e
    | Except.ok (ex?, ds) =>
      match processPractices ls with
      | Except.error e => Except.error e
      | Except.ok (rest, ds2) =>
        Except.ok ((match ex? with | some e => e :: rest | none => rest), ds ++ ds2)

/-! ### Generic lemmas about the Python-semantics combinators -/

theorem mapE_ok_of_forall {α β : Type} {f : α → Except PyError β} {g : α → β} :
    ∀ {l : List α}, (∀ a ∈ l, f a = Except.ok (g a)) → mapE f l = Except.ok (l.map g) := by
  intro l
  induction l with
  | nil => intro _; rfl
  | cons a as ih =>
    intro h
    have ha : f a = Except.ok (g a) := h a (List.mem_cons_self a as)
    have has : mapE f as = Except.ok (as.map g) := ih (fun x hx => h x (List.mem_cons_of_mem a hx))
    simp [mapE, ha, has]

theorem mapE_ok_forall₂ {α β : Type} {f : α → Except PyError β} :
    ∀ {l : List α} {bs : List β}, mapE f l = Except.ok bs →
      List.Forall₂ (fun a b => f a = Except.ok b) l bs := by
  intro l
  induction l with
  | nil =>
    intro bs h
    simp only [mapE] at h
    cases h
    exact List.Forall₂.nil
  | cons a as ih =>
    intro bs h
    simp only [mapE] at h
    cases hfa : f a with
    | error e => rw [hfa] at h; cases h
    | ok b =>
      rw [hfa] at h
      cases hrec : mapE f as with
      | error e => rw [hrec] at h; cases h
      | ok bs' =>
        rw [hrec] at h
        cases h
        exact List.Forall₂.cons hfa (ih hrec)

theorem mapE_ok_of_forall₂ {α β : Type} {f : α → Except PyError β} :
    ∀ {l : List α} {bs : List β}, List.Forall₂ (fun a b => f a = Except.ok b) l bs →
      mapE f l = Except.ok bs := by
  intro l bs h
  induction h with
  | nil => rfl
  | cons ha _ ih => simp [mapE, ha, ih]

theorem mapE_ok_of_forall_ex {α β : Type} {f : α → Except PyError β} :
    ∀ {l : List α}, (∀ a ∈ l, ∃ b, f a = Except.ok b) →
      ∃ bs, mapE f l = Except.ok bs ∧ List.Forall₂ (fun a b => f a = Except.ok b) l bs := by
  intro l
  induction l with
  | nil => intro _; exact ⟨[], rfl, List.Forall₂.nil⟩
  | cons a as ih =>
    intro h
    obtain ⟨b, hb⟩ := h a (List.mem_cons_self a as)
    obtain ⟨bs, hbs, hf⟩ := ih (fun x hx => h x (List.mem_cons_of_mem a hx))
    exact ⟨b :: bs, by simp [mapE, hb, hbs], List.Forall₂.cons hb hf⟩

theorem forall₂_mem_left {α β : Type} {R : α → β → Prop} {l : List α} {bs : List β} {a : α}
    (h : List.Forall₂ R l bs) (hmem : a ∈ l) : ∃ b ∈ bs, R a b := by
  induction h with
  | nil => cases hmem
  | cons hr _ ih =>
    rcases List.mem_cons.mp hmem with rfl | hmem'
    · exact ⟨_, List.mem_cons_self _ _, hr⟩
    · obtain ⟨b, hb, hrb⟩ := ih hmem'
      exact ⟨b, List.mem_cons_of_mem _ hb, hrb⟩

theorem mapE_error_of_mem {α β : Type} {f : α → Except PyError β} {l : List α} {a : α}
    (hmem : a ∈ l) (hfail : ∀ b, f a ≠ Except.ok b) :
    ∃ e, mapE f l = Except.error e := by
  cases hres : mapE f l with
  | error e => exact ⟨e, rfl⟩
  | ok bs =>
    obtain ⟨b, _, hb⟩ := forall₂_mem_left (mapE_ok_forall₂ hres) hmem
    exact absurd hb (hfail b)

theorem pyGet_ok_mem {α : Type} {l : List α} {i : Int} {x : α}
    (h : pyGet l i = Except.ok x) : x ∈ l := by
  unfold pyGet at h
  split at h
  · cases h; exact List.get_mem _ _ _
  · split at h
    · cases h; exact List.get_mem _ _ _
    · cases h

theorem pyGet_natCast {α : Type} {l : List α} {n : ℕ} (h : n < l.length) :
    pyGet l (n : Int) = Except.ok (l.get ⟨n, h⟩) := by
  unfold pyGet
  rw [dif_pos ⟨Int.ofNat_nonneg n, by exact_mod_cast h⟩]
  congr 1

theorem charsDigits?_some {cs : List Char} {n : ℕ} (h : charsDigits? cs = some n) :
    cs ≠ [] ∧ cs.all Char.isDigit = true := by
  unfold charsDigits? at h
  split at h
  · next hc => exact hc
  · cases h

theorem pyInt_str_digits {s : String} {n : ℕ} (h : charsDigits? s.data = some n) :
    pyInt (JIdx.str s) = Except.ok (n : Int) := by
  obtain ⟨h1, h2⟩ := charsDigits?_some h
  have hhead : s.data.head? ≠ some '-' := by
    cases hd : s.data with
    | nil => exact absurd hd h1
    | cons c rest =>
      rw [hd] at h2
      simp only [List.all_cons, Bool.and_eq_true] at h2
      simp only [List.head?, Option.some.injEq, ne_eq]
      intro hc
      rw [hc] at h2
      exact absurd h2.1 (by decide)
  have hp : pyIntOfChars s.data = some ((n : ℕ) : Int) := by
    unfold pyIntOfChars
    rw [if_neg hhead, h]
    rfl
  simp only [pyInt, hp]

/-! ### Characterization lemmas for the three builders and the dispatch -/

theorem forall₂_imp_of_mem {α β : Type} {R S : α → β → Prop} {l : List α} {bs : List β}
    (h : List.Forall₂ R l bs) (himp : ∀ a b, a ∈ l → R a b → S a b) :
    List.Forall₂ S l bs := by
  induction h with
  | nil => exact List.Forall₂.nil
  | cons hr _ ih =>
    exact List.Forall₂.cons
      (himp _ _ (List.mem_cons_self _ _) hr)
      (ih (fun a b ha => himp a b (List.mem_cons_of_mem _ ha)))

theorem multiAnswerOf_some {o : Opt} {t : String} (h : o.text = some t) :
    multiAnswerOf o = Except.ok (strip t) := by
  simp [multiAnswerOf, h]

theorem multi_answers_ok {opts : List Opt} (htext : ∀ o ∈ opts, o.text ≠ none) :
    mapE multiAnswerOf opts = Except.ok (opts.map (fun o => strip (o.text.getD ""))) := by
  apply mapE_ok_of_forall
  intro o ho
  obtain ⟨t, ht⟩ := Option.ne_none_iff_exists'.mp (htext o ho)
  rw [multiAnswerOf_some ht, ht]
  rfl

theorem singleAnswerOf_text {q : PracticeData} {o : Opt} {t : String}
    (h : o.text = some t) (hne : t ≠ "") : singleAnswerOf q o = Except.ok t := by
  simp [singleAnswerOf, h, hne]

theorem singleAnswerOf_value {q : PracticeData} {o : Opt} {v u : String}
    (h : o.text = none ∨ o.text = some "") (hv : o.value = some v) (hu : q.unit = some u) :
    singleAnswerOf q o = Except.ok (v ++ " " ++ u) := by
  rcases h with h | h <;> simp [singleAnswerOf, h, valueUnitOf, hv, hu]

theorem subAnswerOf_some {o : Opt} {s : String} (h : pyOrStr o.answer o.text = some s) :
    subAnswerOf o = Except.ok (strip s) := by
  simp [subAnswerOf, h]

theorem sub_answers_ok {opts : List Opt}
    (h : ∀ o ∈ opts, pyOrStr o.answer o.text ≠ none) :
    mapE subAnswerOf opts =
      Except.ok (opts.map (fun o => strip ((pyOrStr o.answer o.text).getD ""))) := by
  apply mapE_ok_of_forall
  intro o ho
  obtain ⟨s, hs⟩ := Option.ne_none_iff_exists'.mp (h o ho)
  rw [subAnswerOf_some hs, hs]
  rfl

theorem multi_select_ok {q : PracticeData} {desc pid : String}
    (htext : ∀ o ∈ q.options, o.text ≠ none)
    (hidx : ∀ c ∈ q.correctOptions, ∃ n : ℕ,
      pyInt c = Except.ok (n : Int) ∧ n < q.options.length) :
    ∃ cs, add_a_multiple_select_question q desc pid =
      Except.ok { id := pid ++ "-question", question := desc,
                  allAnswers := q.options.map (fun o => strip (o.text.getD "")),
                  correctAnswers := cs, kind := QKind.multipleSelect } ∧
      List.Forall₂ (fun c a => ∃ n : ℕ, pyInt c = Except.ok (n : Int) ∧
          a = (q.options.map (fun o => strip (o.text.getD ""))).getD n "")
        q.correctOptions cs := by
  have hA := multi_answers_ok htext
  set A := q.options.map (fun o => strip (o.text.getD "")) with hAdef
  have hlenA : A.length = q.options.length := by simp [hAdef]
  have hex : ∀ c ∈ q.correctOptions, ∃ b,
      (match pyInt c with
       | Except.error e => Except.error e
       | Except.ok i => pyGet A i) = Except.ok b := by
    intro c hc
    obtain ⟨n, hn, hlt⟩ := hidx c hc
    refine ⟨A.get ⟨n, by omega⟩, ?_⟩
    rw [hn]
    exact pyGet_natCast (by omega)
  obtain ⟨cs, hcs, hf⟩ := mapE_ok_of_forall_ex hex
  refine ⟨cs, ?_, ?_⟩
  · simp only [add_a_multiple_select_question, hA, hcs]
  · refine forall₂_imp_of_mem hf ?_
    intro c a hc hca
    obtain ⟨n, hn, hlt⟩ := hidx c hc
    refine ⟨n, hn, ?_⟩
    rw [hn] at hca
    have hlt' : n < A.length := by omega
    have hca' : pyGet A (n : Int) = Except.ok a := hca
    rw [pyGet_natCast hlt'] at hca'
    cases hca'
    simp [List.getD, List.getElem?_eq_getElem hlt', List.get_eq_getElem]

theorem pyGet_natCast_getD {l : List String} {n : ℕ} (h : n < l.length) :
    pyGet l (n : Int) = Except.ok (l.getD n "") := by
  rw [pyGet_natCast h]
  congr 1
  simp [List.getD, List.getElem?_eq_getElem h, List.get_eq_getElem]

theorem single_select_ok {q : PracticeData} {desc pid : String} {A : List String} {n : ℕ}
    (hans : mapE (singleAnswerOf q) q.options = Except.ok A)
    (hn : pyInt q.correctOption = Except.ok (n : Int)) (hlen : n < A.length) :
    add_a_single_select_question q desc pid =
      Except.ok { id := pid ++ "-question", question := desc, allAnswers := A,
                  correctAnswers := [A.getD n ""], kind := QKind.singleSelect } := by
  simp only [add_a_single_select_question, hans, hn, pyGet_natCast_getD hlen]

theorem buildSubQuestion_ok {desc pid : String} {sq : SubQ} {A : List String} {n : ℕ}
    (hans : mapE subAnswerOf sq.options = Except.ok A)
    (hn : pyInt sq.correctOption = Except.ok (n : Int)) (hlen : n < A.length) :
    buildSubQuestion desc pid sq =
      Except.ok { id := pid ++ "-question-" ++ sq.id,
                  question := desc ++ "\n" ++ sq.text, allAnswers := A,
                  correctAnswers := [A.getD n ""], kind := QKind.singleSelect } := by
  simp only [buildSubQuestion, hans, hn, pyGet_natCast_getD hlen]

theorem single_not_multi {ty : String} (h : ty ∈ singleTypes) : ty ∉ multiTypes := by
  simp only [singleTypes, List.mem_cons, List.not_mem_nil, or_false] at h
  rcases h with rfl | rfl | rfl <;> decide

theorem multiSingle_not_multi {ty : String} (h : ty ∈ multiSingleTypes) : ty ∉ multiTypes := by
  simp only [multiSingleTypes, List.mem_cons, List.not_mem_nil, or_false] at h
  rcases h with rfl | rfl <;> decide

theorem multiSingle_not_single {ty : String} (h : ty ∈ multiSingleTypes) : ty ∉ singleTypes := by
  simp only [multiSingleTypes, List.mem_cons, List.not_mem_nil, or_false] at h
  rcases h with rfl | rfl <;> decide

theorem classify_practice_multi {ty : String} {pd : PracticeData} {desc pid url : String} {qq : Question}
    (hty : ty ∈ multiTypes)
    (h : add_a_multiple_select_question pd desc pid = Except.ok qq) :
    classify_practice ty pd desc pid url = Except.ok (some [qq], []) := by
  rw [classify_practice, if_pos hty, h]

theorem classify_practice_single {ty : String} {pd : PracticeData} {desc pid url : String} {qq : Question}
    (hty : ty ∈ singleTypes)
    (h : add_a_single_select_question pd desc pid = Except.ok qq) :
    classify_practice ty pd desc pid url = Except.ok (some [qq], []) := by
  rw [classify_practice, if_neg (single_not_multi hty), if_pos hty, h]

theorem classify_practice_multiSingle {ty : String} {pd : PracticeData}
    {desc pid url : String} {qs : List Question}
    (hty : ty ∈ multiSingleTypes)
    (h : add_multiple_single_select_questions pd.subQuestions desc pid = Except.ok qs) :
    classify_practice ty pd desc pid url = Except.ok (some qs, []) := by
  rw [classify_practice, if_neg (multiSingle_not_multi hty),
      if_neg (multiSingle_not_single hty), if_pos hty, h]

theorem classify_practice_unrecognized {ty : String} {pd : PracticeData} {desc pid url : String}
    (h1 : ty ∉ multiTypes) (h2 : ty ∉ singleTypes) (h3 : ty ∉ multiSingleTypes) :
    classify_practice ty pd desc pid url =
      Except.ok (none, [⟨Level.error, "Type " ++ ty ++ " hasn't been analyzed: " ++ url⟩]) := by
  rw [classify_practice, if_neg h1, if_neg h2, if_neg h3]

theorem forall₂_mem_right {α β : Type} {R : α → β → Prop} {l : List α} {bs : List β} {b : β}
    (h : List.Forall₂ R l bs) (hmem : b ∈ bs) : ∃ a ∈ l, R a b := by
  induction h with
  | nil => cases hmem
  | cons hr _ ih =>
    rcases List.mem_cons.mp hmem with rfl | hmem'
    · exact ⟨_, List.mem_cons_self _ _, hr⟩
    · obtain ⟨a, ha, hra⟩ := ih hmem'
      exact ⟨a, List.mem_cons_of_mem _ ha, hra⟩

theorem multi_select_ok_subset {pd : PracticeData} {desc pid : String} {qq : Question}
    (h : add_a_multiple_select_question pd desc pid = Except.ok qq) :
    ∀ a ∈ qq.correctAnswers, a ∈ qq.allAnswers := by
  unfold add_a_multiple_select_question at h
  split at h
  · cases h
  · next A heqA =>
    split at h
    · cases h
    · next cs heqC =>
      cases h
      intro a ha
      obtain ⟨c, _, hfc⟩ := forall₂_mem_right (mapE_ok_forall₂ heqC) ha
      cases hpi : pyInt c with
      | error e => rw [hpi] at hfc; cases hfc
      | ok i =>
        rw [hpi] at hfc
        exact pyGet_ok_mem hfc

theorem single_select_ok_subset {pd : PracticeData} {desc pid : String} {qq : Question}
    (h : add_a_single_select_question pd desc pid = Except.ok qq) :
    ∀ a ∈ qq.correctAnswers, a ∈ qq.allAnswers := by
  unfold add_a_single_select_question at h
  split at h
  · cases h
  · next A heqA =>
    split at h
    · cases h
    · next i heqI =>
      split at h
      · cases h
      · next ans heqG =>
        cases h
        intro a ha
        rw [List.mem_singleton] at ha
        subst ha
        exact pyGet_ok_mem heqG

theorem buildSubQuestion_ok_subset {desc pid : String} {sq : SubQ} {qq : Question}
    (h : buildSubQuestion desc pid sq = Except.ok qq) :
    ∀ a ∈ qq.correctAnswers, a ∈ qq.allAnswers := by
  unfold buildSubQuestion at h
  split at h
  · cases h
  · next A heqA =>
    split at h
    · cases h
    · next i heqI =>
      split at h
      · cases h
      · next ans heqG =>
        cases h
        intro a ha
        rw [List.mem_singleton] at ha
        subst ha
        exact pyGet_ok_mem heqG

/-! ### Claim theorems -/

/-- Claim C1: for every practice activity whose type is one of
`select-right`, `switches-text`, `strike-through` or `tag-cloud` (with every
option carrying a text field and every correct-option index an in-range
integer, as the builder requires), the Classifier produces exactly one
multi-answer question whose id is `"<practice_id>-question"`, whose
`allAnswers` is the markup-stripped text of every option in source option
order, and whose `correctAnswers` is exactly the subset of `allAnswers` at
the indices listed in the activity's `correctOptions`. -/
theorem C1_multi_select_shape (ty : String) (pd : PracticeData) (desc pid url : String)
    (hty : ty ∈ multiTypes)
    (htext : ∀ o ∈ pd.options, o.text ≠ none)
    (hidx : ∀ c ∈ pd.correctOptions, ∃ n : ℕ,
      pyInt c = Except.ok (n : Int) ∧ n < pd.options.length) :
    ∃ cs, classify_practice ty pd desc pid url =
      Except.ok (some [{ id := pid ++ "-question", question := desc,
                         allAnswers := pd.options.map (fun o => strip (o.text.getD "")),
                         correctAnswers := cs, kind := QKind.multipleSelect }], []) ∧
      List.Forall₂ (fun c a => ∃ n : ℕ, pyInt c = Except.ok (n : Int) ∧
          a = (pd.options.map (fun o => strip (o.text.getD ""))).getD n "")
        pd.correctOptions cs := by
  obtain ⟨cs, hq, hf⟩ := multi_select_ok htext hidx
  exact ⟨cs, classify_practice_multi hty hq, hf⟩

/-- The spec's own `select-right` test vector: options `["a","b","c"]`,
correct-index set `{0, 2}` (the second serialized as a string). -/
def pdC1 : PracticeData :=
  { options := [{ text := some "a", value := none, answer := none },
                { text := some "b", value := none, answer := none },
                { text := some "c", value := none, answer := none }],
    subQuestions := [],
    correctOptions := [JIdx.num 0, JIdx.str "2"],
    correctOption := JIdx.num 0,
    unit := none }

/-- Witness for C1 at the spec's `select-right` example. -/
theorem C1_multi_select_shape_witness :
    ∃ cs, classify_practice "select-right" pdC1 "desc" "pid" "url" =
      Except.ok (some [{ id := "pid" ++ "-question", question := "desc",
                         allAnswers := pdC1.options.map (fun o => strip (o.text.getD "")),
                         correctAnswers := cs, kind := QKind.multipleSelect }], []) ∧
      List.Forall₂ (fun c a => ∃ n : ℕ, pyInt c = Except.ok (n : Int) ∧
          a = (pdC1.options.map (fun o => strip (o.text.getD ""))).getD n "")
        pdC1.correctOptions cs :=
  C1_multi_select_shape "select-right" pdC1 "desc" "pid" "url"
    (by decide)
    (by intro o ho
        fin_cases ho <;> simp [pdC1])
    (by intro c hc
        fin_cases hc
        · exact ⟨0, rfl, by decide⟩
        · exact ⟨2, rfl, by decide⟩)

/-- Counterexample to claim C2 as stated: in the single-answer branch an
option whose `text` key is present but empty does NOT contribute its text —
the code tests Python truthiness (`choice.get("text")`), so the option is
rendered as `"<value> <unit>"` instead. Here the only option has
`text = ""`, `value = "5"` and the activity has `unit = "kg"`; the produced
`allAnswers` is `["5 kg"]`, not `[""]` as the claim requires. -/
theorem C2_counterexample :
    classify_practice "swipe-selector"
        { options := [{ text := some "", value := some "5", answer := none }],
          subQuestions := [], correctOptions := [], correctOption := JIdx.num 0,
          unit := some "kg" } "d" "p" "u" =
      Except.ok (some [{ id := "p-question", question := "d",
                         allAnswers := ["5 kg"], correctAnswers := ["5 kg"],
                         kind := QKind.singleSelect }], []) ∧
    ("5 kg" : String) ≠ "" :=
  ⟨rfl, by decide⟩

/-- Claim C2 (amended: an option's text is used only when it is present AND
non-empty — Python truthiness — otherwise the `"<value> <unit>"` fallback
applies): for every practice activity whose type is one of `swipe-selector`,
`twitter-draganddrop` or `image-slider`, the Classifier produces exactly one
single-answer question whose id is `"<practice_id>-question"`, where
`allAnswers[i]` is the i-th option's text if present and non-empty and
otherwise `"<value> <unit>"` (value and activity unit joined by a space),
and `correctAnswers` is exactly the single element of `allAnswers` at the
activity's `correctOption` index. -/
theorem C2_single_select_shape (ty : String) (pd : PracticeData) (desc pid url : String)
    (A : List String) (n : ℕ)
    (hty : ty ∈ singleTypes)
    (hans : List.Forall₂ (fun (o : Opt) (a : String) =>
        (∃ t, o.text = some t ∧ t ≠ "" ∧ a = t) ∨
        ((o.text = none ∨ o.text = some "") ∧
          ∃ v u, o.value = some v ∧ pd.unit = some u ∧ a = v ++ " " ++ u))
      pd.options A)
    (hn : pyInt pd.correctOption = Except.ok (n : Int)) (hlen : n < A.length) :
    classify_practice ty pd desc pid url =
      Except.ok (some [{ id := pid ++ "-question", question := desc,
                         allAnswers := A, correctAnswers := [A.getD n ""],
                         kind := QKind.singleSelect }], []) := by
  have hbuild : mapE (singleAnswerOf pd) pd.options = Except.ok A := by
    apply mapE_ok_of_forall₂
    refine List.Forall₂.imp ?_ hans
    intro o a h
    rcases h with ⟨t, ht, hne, rfl⟩ | ⟨hT, v, u, hv, hu, rfl⟩
    · exact singleAnswerOf_text ht hne
    · exact singleAnswerOf_value hT hv hu
  exact classify_practice_single hty (single_select_ok hbuild hn hlen)

/-- The spec's own `swipe-selector` test vector: options lacking text,
values `"5"` and `"7"`, unit `"kg"`, correct index 1. -/
def pdC2 : PracticeData :=
  { options := [{ text := none, value := some "5", answer := none },
                { text := none, value := some "7", answer := none }],
    subQuestions := [],
    correctOptions := [],
    correctOption := JIdx.num 1,
    unit := some "kg" }

/-- Witness for the amended C2 at the spec's `swipe-selector` example. -/
theorem C2_single_select_shape_witness :
    classify_practice "swipe-selector" pdC2 "desc" "pid" "url" =
      Except.ok (some [{ id := "pid" ++ "-question", question := "desc",
                         allAnswers := ["5 kg", "7 kg"],
                         correctAnswers := [["5 kg", "7 kg"].getD 1 ""],
                         kind := QKind.singleSelect }], []) :=
  C2_single_select_shape "swipe-selector" pdC2 "desc" "pid" "url" ["5 kg", "7 kg"] 1
    (by decide)
    (List.Forall₂.cons (Or.inr ⟨Or.inl rfl, "5", "kg", rfl, rfl, rfl⟩)
      (List.Forall₂.cons (Or.inr ⟨Or.inl rfl, "7", "kg", rfl, rfl, rfl⟩)
        List.Forall₂.nil))
    rfl
    (by decide)

/-- The payload for the C3 counterexample: one `text-drawer` sub-question
whose only nested option has an (empty) `answer` field AND a `text` field. -/
def pdC3ce : PracticeData :=
  { options := [],
    subQuestions := [{ id := "s1", text := "Q?",
                       options := [{ text := some "x", value := none, answer := some "" }],
                       correctOption := JIdx.num 0 }],
    correctOptions := [],
    correctOption := JIdx.num 0,
    unit := none }

/-- Counterexample to claim C3 as stated: a nested option whose `answer` key
is present but empty does NOT contribute its answer field — the code
evaluates `choice.get("answer") or choice.get("text")` by Python
truthiness, so the `text` field `"x"` is used instead of the present
`answer` field `""`. -/
theorem C3_counterexample :
    classify_practice "text-drawer" pdC3ce "d" "p" "u" =
      Except.ok (some [{ id := "p-question-s1", question := "d" ++ "\n" ++ "Q?",
                         allAnswers := ["x"], correctAnswers := ["x"],
                         kind := QKind.singleSelect }], []) ∧
    ("x" : String) ≠ "" :=
  ⟨rfl, by decide⟩

/-- Claim C3 (amended: a nested option's `answer` field is used only when it
is present AND non-empty — Python truthiness — otherwise its `text` field is
used): for every practice activity whose type is `text-drawer` or
`boolean-selector`, the Classifier produces one single-answer question per
entry of `practice_data.options`; for each sub-question, `allAnswers[i]` is
the i-th nested option's answer field if non-empty else its text field
(markup-stripped), the prompt text is the shared description followed by a
newline and the sub-question's own text, and the output id is
`"<practice_id>-question-<subquestion.id>"`. -/
theorem C3_multi_single_shape (ty : String) (pd : PracticeData) (desc pid url : String)
    (hty : ty ∈ multiSingleTypes)
    (hok : ∀ sq ∈ pd.subQuestions,
      (∀ o ∈ sq.options, pyOrStr o.answer o.text ≠ none) ∧
      ∃ n : ℕ, pyInt sq.correctOption = Except.ok (n : Int) ∧ n < sq.options.length) :
    ∃ qs, classify_practice ty pd desc pid url = Except.ok (some qs, []) ∧
      qs.length = pd.subQuestions.length ∧
      List.Forall₂ (fun sq qq =>
        qq.id = pid ++ "-question-" ++ sq.id ∧
        qq.question = desc ++ "\n" ++ sq.text ∧
        qq.allAnswers = sq.options.map (fun o => strip ((pyOrStr o.answer o.text).getD "")) ∧
        qq.kind = QKind.singleSelect ∧
        ∃ n : ℕ, pyInt sq.correctOption = Except.ok (n : Int) ∧
          qq.correctAnswers = [qq.allAnswers.getD n ""])
      pd.subQuestions qs := by
  have hex : ∀ sq ∈ pd.subQuestions, ∃ qq, buildSubQuestion desc pid sq = Except.ok qq := by
    intro sq hsq
    obtain ⟨hopts, n, hn, hlt⟩ := hok sq hsq
    have hA := sub_answers_ok hopts
    have hlen : n < (sq.options.map (fun o => strip ((pyOrStr o.answer o.text).getD ""))).length := by
      rw [List.length_map]; exact hlt
    exact ⟨_, buildSubQuestion_ok hA hn hlen⟩
  obtain ⟨qs, hqs, hf⟩ := mapE_ok_of_forall_ex hex
  refine ⟨qs, classify_practice_multiSingle hty hqs, hf.length_eq.symm, ?_⟩
  refine forall₂_imp_of_mem hf ?_
  intro sq qq hmem hbuild
  obtain ⟨hopts, n, hn, hlt⟩ := hok sq hmem
  have hA := sub_answers_ok hopts
  have hlen : n < (sq.options.map (fun o => strip ((pyOrStr o.answer o.text).getD ""))).length := by
    rw [List.length_map]; exact hlt
  rw [buildSubQuestion_ok hA hn hlen] at hbuild
  cases hbuild
  exact ⟨rfl, rfl, rfl, rfl, n, hn, rfl⟩

/-- The spec's own `text-drawer` test vector: two sub-questions, each with
nested options and their own correct index. -/
def pdC3 : PracticeData :=
  { options := [],
    subQuestions :=
      [{ id := "s1", text := "First?",
         options := [{ text := some "<p>no</p>", value := none, answer := none },
                     { text := none, value := none, answer := some "yes" }],
         correctOption := JIdx.num 1 },
       { id := "s2", text := "Second?",
         options := [{ text := some "cold", value := none, answer := none },
                     { text := some "hot", value := none, answer := none }],
         correctOption := JIdx.str "0" }],
    correctOptions := [],
    correctOption := JIdx.num 0,
    unit := none }

/-- Witness for the amended C3 at the spec's two-sub-question example. -/
theorem C3_multi_single_shape_witness :
    ∃ qs, classify_practice "text-drawer" pdC3 "desc" "pid" "url" = Except.ok (some qs, []) ∧
      qs.length = pdC3.subQuestions.length ∧
      List.Forall₂ (fun sq qq =>
        qq.id = "pid" ++ "-question-" ++ sq.id ∧
        qq.question = "desc" ++ "\n" ++ sq.text ∧
        qq.allAnswers = sq.options.map (fun o => strip ((pyOrStr o.answer o.text).getD "")) ∧
        qq.kind = QKind.singleSelect ∧
        ∃ n : ℕ, pyInt sq.correctOption = Except.ok (n : Int) ∧
          qq.correctAnswers = [qq.allAnswers.getD n ""])
      pdC3.subQuestions qs :=
  C3_multi_single_shape "text-drawer" pdC3 "desc" "pid" "url"
    (by decide)
    (by intro sq hsq
        fin_cases hsq
        · exact ⟨by intro o ho; fin_cases ho <;> simp [pyOrStr], 1, rfl, by decide⟩
        · exact ⟨by intro o ho; fin_cases ho <;> simp [pyOrStr], 0, rfl, by decide⟩)

/-- Counterexample to claim C4 as stated: the diagnostic the code emits for
an unrecognized practice type is logged via `LOGGER.error` (line 241), i.e.
at error severity, not as a warning. Everything else about the claim holds:
zero questions, nothing raised, the type and the URL are in the message. -/
theorem C4_counterexample :
    classify_practice "unknown-widget"
        { options := [], subQuestions := [], correctOptions := [],
          correctOption := JIdx.num 0, unit := none } "d" "p" "http://u" =
      Except.ok (none, [{ level := Level.error,
                          message := "Type unknown-widget hasn't been analyzed: http://u" }]) ∧
    Level.error ≠ Level.warning :=
  ⟨rfl, by decide⟩

/-- Claim C4 (amended: the diagnostic is emitted at error severity, not as a
warning): for every practice activity whose type is not in the recognized
vocabulary, classification yields zero questions, an error-level diagnostic
identifying the type and the source URL is logged rather than an exception
being raised, no exercise node is created for that lesson, and processing of
subsequent lessons continues — the failure is non-fatal to the run. -/
theorem C4_unrecognized_nonfatal (ty : String) (pd : PracticeData)
    (lesson : LessonCtx) (url title desc : String) (rest : List LessonPractice)
    (h1 : ty ∉ multiTypes) (h2 : ty ∉ singleTypes) (h3 : ty ∉ multiSingleTypes) :
    classify_practice ty pd desc (practiceIdOf lesson) url =
      Except.ok (none, [{ level := Level.error,
                          message := "Type " ++ ty ++ " hasn't been analyzed: " ++ url }]) ∧
    add_lesson_practice lesson url title ty pd desc =
      Except.ok (none, [{ level := Level.error,
                          message := "Type " ++ ty ++ " hasn't been analyzed: " ++ url }]) ∧
    (∀ exs ds, processPractices rest = Except.ok (exs, ds) →
      processPractices (⟨lesson, url, title, ty, pd, desc⟩ :: rest) =
        Except.ok (exs, ({ level := Level.error,
                           message := "Type " ++ ty ++ " hasn't been analyzed: " ++ url } : Diag) :: ds)) := by
  have hc := @classify_practice_unrecognized ty pd desc (practiceIdOf lesson) url h1 h2 h3
  have hl : add_lesson_practice lesson url title ty pd desc =
      Except.ok (none, [{ level := Level.error,
                          message := "Type " ++ ty ++ " hasn't been analyzed: " ++ url }]) := by
    simp only [add_lesson_practice, hc]
  refine ⟨hc, hl, ?_⟩
  intro exs ds hrest
  simp only [processPractices, hl, hrest, List.singleton_append]

/-- The empty payload carried by the C4 witness's unrecognized activity. -/
def pdC4empty : PracticeData :=
  { options := [], subQuestions := [], correctOptions := [],
    correctOption := JIdx.num 0, unit := none }

/-- A recognized `select-right` payload for the lesson that follows the
unrecognized one in the C4 witness. -/
def pdC4next : PracticeData :=
  { options := [{ text := some "a", value := none, answer := none },
                { text := some "b", value := none, answer := none }],
    subQuestions := [],
    correctOptions := [JIdx.num 1],
    correctOption := JIdx.num 0,
    unit := none }

/-- The lesson list for the C4 witness: the unrecognized lesson, then a
recognized one. -/
def lessonsC4 : List LessonPractice :=
  [⟨⟨"L1", "es-l1"⟩, "http://u", "T", "unknown-widget", pdC4empty, "d"⟩,
   ⟨⟨"L2", "es-l2"⟩, "http://u2", "T2", "select-right", pdC4next, "d2"⟩]

/-- Witness for the amended C4: an `"unknown-widget"` activity yields no
questions and no exercise node, only the error-level diagnostic, and the
recognized lesson after it is still processed into its exercise node. -/
theorem C4_unrecognized_nonfatal_witness :
    classify_practice "unknown-widget" pdC4empty
        "d" (practiceIdOf { title := "L1", source_id := "es-l1" }) "http://u" =
      Except.ok (none, [{ level := Level.error,
                          message := "Type " ++ "unknown-widget" ++ " hasn't been analyzed: " ++ "http://u" }]) ∧
    add_lesson_practice { title := "L1", source_id := "es-l1" } "http://u" "T" "unknown-widget"
        pdC4empty "d" =
      Except.ok (none, [{ level := Level.error,
                          message := "Type " ++ "unknown-widget" ++ " hasn't been analyzed: " ++ "http://u" }]) ∧
    processPractices lessonsC4 =
      Except.ok ([{ source_id := "L2 Practice", title := "T2",
                    master_model := "do_all", randomize := false,
                    questions := [{ id := "es-l2-practice-question", question := "d2",
                                    allAnswers := ["a", "b"], correctAnswers := ["b"],
                                    kind := QKind.multipleSelect }] }],
        ({ level := Level.error,
           message := "Type " ++ "unknown-widget" ++ " hasn't been analyzed: " ++ "http://u" } : Diag) :: []) := by
  have h := C4_unrecognized_nonfatal "unknown-widget" pdC4empty
    { title := "L1", source_id := "es-l1" } "http://u" "T" "d"
    [⟨⟨"L2", "es-l2"⟩, "http://u2", "T2", "select-right", pdC4next, "d2"⟩]
    (by decide) (by decide) (by decide)
  exact ⟨h.1, h.2.1, h.2.2 _ _ rfl⟩

/-- Claim C5: for all inputs on which classification succeeds, across all
recognized activity types, every string in a produced question's
`correctAnswers` is a member of that question's `allAnswers` — the
index-to-string mapping only ever selects elements of the answer list it
indexes into. -/
theorem C5_correct_answers_membership (ty : String) (pd : PracticeData)
    (desc pid url : String) (qs : List Question) (ds : List Diag)
    (h : classify_practice ty pd desc pid url = Except.ok (some qs, ds)) :
    ∀ q ∈ qs, ∀ a ∈ q.correctAnswers, a ∈ q.allAnswers := by
  unfold classify_practice at h
  split_ifs at h with h1 h2 h3
  · split at h
    · cases h
    · next qq heq =>
      cases h
      intro q hq
      rw [List.mem_singleton] at hq
      subst hq
      exact multi_select_ok_subset heq
  · split at h
    · cases h
    · next qq heq =>
      cases h
      intro q hq
      rw [List.mem_singleton] at hq
      subst hq
      exact single_select_ok_subset heq
  · split at h
    · cases h
    · next qs' heq =>
      cases h
      intro q hq
      obtain ⟨sq, _, hsq⟩ := forall₂_mem_right (mapE_ok_forall₂ heq) hq
      exact buildSubQuestion_ok_subset hsq
  · cases h

/-- Witness for C5: in a successful `image-slider` classification, the
produced question's single correct answer `"7 kg"` is a member of its
answer list. -/
theorem C5_correct_answers_membership_witness :
    ("7 kg" : String) ∈
      ({ id := "p-question", question := "d",
         allAnswers := ["5 kg", "7 kg"], correctAnswers := ["7 kg"],
         kind := QKind.singleSelect } : Question).allAnswers :=
  C5_correct_answers_membership "image-slider"
    { options := [{ text := none, value := some "5", answer := none },
                  { text := none, value := some "7", answer := none }],
      subQuestions := [], correctOptions := [], correctOption := JIdx.str "1",
      unit := some "kg" }
    "d" "p" "u"
    [{ id := "p-question", question := "d",
       allAnswers := ["5 kg", "7 kg"], correctAnswers := ["7 kg"],
       kind := QKind.singleSelect }]
    [] rfl
    { id := "p-question", question := "d",
      allAnswers := ["5 kg", "7 kg"], correctAnswers := ["7 kg"],
      kind := QKind.singleSelect }
    (List.mem_singleton.mpr rfl)
    "7 kg"
    (List.mem_singleton.mpr rfl)

/-- Counterexample to claim C6 as stated: the claim asserts the
paragraph-wrapper stripping happens for EVERY recognized activity type, but
the single-answer branch (`add_a_single_select_question`, lines 272-273)
appends `choice["text"]` verbatim. A `swipe-selector` option with text
`"<p>Answer</p>"` appears in `allAnswers` as `"<p>Answer</p>"`, not
`"Answer"`. -/
theorem C6_counterexample :
    classify_practice "swipe-selector"
        { options := [{ text := some "<p>Answer</p>", value := none, answer := none }],
          subQuestions := [], correctOptions := [], correctOption := JIdx.num 0,
          unit := none } "d" "p" "u" =
      Except.ok (some [{ id := "p-question", question := "d",
                         allAnswers := ["<p>Answer</p>"], correctAnswers := ["<p>Answer</p>"],
                         kind := QKind.singleSelect }], []) ∧
    ("<p>Answer</p>" : String) ≠ "Answer" :=
  ⟨rfl, by decide⟩

/-- Claim C6 (amended: the literal `"<p>"`/`"</p>"` substring removal — and
no other sanitization, `strip` being exactly those two replacements —
applies to the option text of the multi-answer branch and to the chosen
answer/text of the N-sub-question branch, while the single-answer branch
uses the option's text verbatim): an option text `"<p>Answer</p>"`
normalizes to `"Answer"` where stripping applies. -/
theorem C6_markup_stripping :
    strip "<p>Answer</p>" = "Answer" ∧
    (∀ (o : Opt) (t : String), o.text = some t → multiAnswerOf o = Except.ok (strip t)) ∧
    (∀ (o : Opt) (s : String), pyOrStr o.answer o.text = some s →
      subAnswerOf o = Except.ok (strip s)) ∧
    (∀ (pd : PracticeData) (o : Opt) (t : String), o.text = some t → t ≠ "" →
      singleAnswerOf pd o = Except.ok t) :=
  ⟨rfl,
   fun _ _ h => multiAnswerOf_some h,
   fun _ _ h => subAnswerOf_some h,
   fun _ _ _ h hne => singleAnswerOf_text h hne⟩

/-- Witness for the amended C6: the stripping branches turn
`"<p>Answer</p>"` into `"Answer"`; the verbatim branch keeps it intact. -/
theorem C6_markup_stripping_witness :
    multiAnswerOf { text := some "<p>Answer</p>", value := none, answer := none } =
      Except.ok "Answer" ∧
    subAnswerOf { text := none, value := none, answer := some "<p>Answer</p>" } =
      Except.ok "Answer" ∧
    singleAnswerOf
        { options := [], subQuestions := [], correctOptions := [],
          correctOption := JIdx.num 0, unit := none }
        { text := some "<p>Answer</p>", value := none, answer := none } =
      Except.ok "<p>Answer</p>" :=
  ⟨C6_markup_stripping.2.1 _ "<p>Answer</p>" rfl,
   C6_markup_stripping.2.2.1 _ "<p>Answer</p>" rfl,
   C6_markup_stripping.2.2.2 _ _ "<p>Answer</p>" rfl (by decide)⟩

theorem pyInt_of_numOrStr {v : JIdx} {n : ℕ}
    (h : v = JIdx.num (n : Int) ∨ ∃ s, v = JIdx.str s ∧ charsDigits? s.data = some n) :
    pyInt v = Except.ok (n : Int) := by
  rcases h with rfl | ⟨s, rfl, hs⟩
  · rfl
  · exact pyInt_str_digits hs

/-- Claim C7: for every recognized activity type, correct-option indices —
whether given as integers or as their decimal string serializations — are
interpreted as zero-based positions into the `allAnswers` sequence built in
the same order as the source option list, so the answer selected as correct
is the one at that position in the original option order. Stated for all
three builders at once. -/
theorem C7_zero_based_indexing (pd pd2 : PracticeData) (sq : SubQ) (desc pid : String)
    (A A2 A3 : List String) (n n3 : ℕ) (ns : List ℕ)
    (h1 : mapE (singleAnswerOf pd) pd.options = Except.ok A)
    (hv1 : pd.correctOption = JIdx.num (n : Int) ∨
      ∃ s, pd.correctOption = JIdx.str s ∧ charsDigits? s.data = some n)
    (hn1 : n < A.length)
    (h2 : mapE multiAnswerOf pd2.options = Except.ok A2)
    (hv2 : List.Forall₂ (fun v (i : ℕ) => (v = JIdx.num (i : Int) ∨
      ∃ s, v = JIdx.str s ∧ charsDigits? s.data = some i) ∧ i < A2.length)
      pd2.correctOptions ns)
    (h3 : mapE subAnswerOf sq.options = Except.ok A3)
    (hv3 : sq.correctOption = JIdx.num (n3 : Int) ∨
      ∃ s, sq.correctOption = JIdx.str s ∧ charsDigits? s.data = some n3)
    (hn3 : n3 < A3.length) :
    add_a_single_select_question pd desc pid =
      Except.ok { id := pid ++ "-question", question := desc, allAnswers := A,
                  correctAnswers := [A.getD n ""], kind := QKind.singleSelect } ∧
    add_a_multiple_select_question pd2 desc pid =
      Except.ok { id := pid ++ "-question", question := desc, allAnswers := A2,
                  correctAnswers := ns.map (fun i => A2.getD i ""),
                  kind := QKind.multipleSelect } ∧
    buildSubQuestion desc pid sq =
      Except.ok { id := pid ++ "-question-" ++ sq.id, question := desc ++ "\n" ++ sq.text,
                  allAnswers := A3, correctAnswers := [A3.getD n3 ""],
                  kind := QKind.singleSelect } := by
  refine ⟨single_select_ok h1 (pyInt_of_numOrStr hv1) hn1, ?_,
    buildSubQuestion_ok h3 (pyInt_of_numOrStr hv3) hn3⟩
  have hcs : mapE (fun c =>
      match pyInt c with
      | Except.error e => Except.error e
      | Except.ok i => pyGet A2 i) pd2.correctOptions =
      Except.ok (ns.map (fun i => A2.getD i "")) := by
    apply mapE_ok_of_forall₂
    rw [List.forall₂_map_right_iff]
    refine List.Forall₂.imp ?_ hv2
    intro v i hvi
    obtain ⟨hform, hlt⟩ := hvi
    rw [pyInt_of_numOrStr hform]
    exact pyGet_natCast_getD hlt
  simp only [add_a_multiple_select_question, h2, hcs]

/-- The single-select payload for the C7 witness: correct index serialized
as the string `"1"`. -/
def pdC7single : PracticeData :=
  { options := [{ text := some "x", value := none, answer := none },
                { text := some "y", value := none, answer := none }],
    subQuestions := [], correctOptions := [], correctOption := JIdx.str "1",
    unit := none }

/-- The multiple-select payload for the C7 witness: one integer index and
one string-serialized index. -/
def pdC7multi : PracticeData :=
  { options := [{ text := some "a", value := none, answer := none },
                { text := some "b", value := none, answer := none },
                { text := some "c", value := none, answer := none }],
    subQuestions := [], correctOptions := [JIdx.num 0, JIdx.str "2"],
    correctOption := JIdx.num 0, unit := none }

/-- The sub-question for the C7 witness: string-serialized index `"0"`. -/
def sqC7 : SubQ :=
  { id := "s", text := "t",
    options := [{ text := some "u", value := none, answer := none },
                { text := some "v", value := none, answer := none }],
    correctOption := JIdx.str "0" }

/-- Witness for C7: integer and string-serialized indices both select the
answer at that zero-based position, in all three builders. -/
theorem C7_zero_based_indexing_witness :
    add_a_single_select_question pdC7single "d" "p" =
      Except.ok { id := "p" ++ "-question", question := "d", allAnswers := ["x", "y"],
                  correctAnswers := [["x", "y"].getD 1 ""], kind := QKind.singleSelect } ∧
    add_a_multiple_select_question pdC7multi "d" "p" =
      Except.ok { id := "p" ++ "-question", question := "d", allAnswers := ["a", "b", "c"],
                  correctAnswers := [0, 2].map (fun i => ["a", "b", "c"].getD i ""),
                  kind := QKind.multipleSelect } ∧
    buildSubQuestion "d" "p" sqC7 =
      Except.ok { id := "p" ++ "-question-" ++ sqC7.id, question := "d" ++ "\n" ++ sqC7.text,
                  allAnswers := ["u", "v"], correctAnswers := [["u", "v"].getD 0 ""],
                  kind := QKind.singleSelect } :=
  C7_zero_based_indexing pdC7single pdC7multi sqC7 "d" "p"
    ["x", "y"] ["a", "b", "c"] ["u", "v"] 1 0 [0, 2]
    rfl
    (Or.inr ⟨"1", rfl, by decide⟩)
    (by decide)
    rfl
    (List.Forall₂.cons ⟨Or.inl rfl, by decide⟩
      (List.Forall₂.cons ⟨Or.inr ⟨"2", rfl, by decide⟩, by decide⟩ List.Forall₂.nil))
    rfl
    (Or.inr ⟨"0", rfl, by decide⟩)
    (by decide)

/-- Claim C8: the Classifier is a pure function of `practice_type`,
`practice_data`, `description` and `practice_id` — in this embedding it is a
function, so invoking it twice on the same input yields identical output —
and it has no side-effect channel other than the diagnostic report for
unrecognized types: whenever a recognized type classifies successfully, the
emitted diagnostic list is empty. -/
theorem C8_pure_no_side_effects (ty : String) (pd : PracticeData) (desc pid url : String)
    (hty : ty ∈ multiTypes ∨ ty ∈ singleTypes ∨ ty ∈ multiSingleTypes) :
    classify_practice ty pd desc pid url = classify_practice ty pd desc pid url ∧
    (∀ out ds, classify_practice ty pd desc pid url = Except.ok (out, ds) → ds = []) := by
  refine ⟨rfl, ?_⟩
  intro out ds h
  unfold classify_practice at h
  rcases hty with h1 | h1 | h1
  · rw [if_pos h1] at h
    split at h
    · cases h
    · cases h; rfl
  · rw [if_neg (single_not_multi h1), if_pos h1] at h
    split at h
    · cases h
    · cases h; rfl
  · rw [if_neg (multiSingle_not_multi h1), if_neg (multiSingle_not_single h1), if_pos h1] at h
    split at h
    · cases h
    · cases h; rfl

/-- The `tag-cloud` payload for the C8 witness. -/
def pdC8 : PracticeData :=
  { options := [{ text := some "a", value := none, answer := none }],
    subQuestions := [], correctOptions := [JIdx.num 0],
    correctOption := JIdx.num 0, unit := none }

/-- Witness for C8: a concrete `tag-cloud` classification is self-identical
and emits no diagnostics. -/
theorem C8_pure_no_side_effects_witness :
    classify_practice "tag-cloud" pdC8 "d" "p" "u" =
      classify_practice "tag-cloud" pdC8 "d" "p" "u" ∧
    ([] : List Diag) = [] :=
  ⟨(C8_pure_no_side_effects "tag-cloud" pdC8 "d" "p" "u" (Or.inl (by decide))).1,
   (C8_pure_no_side_effects "tag-cloud" pdC8 "d" "p" "u" (Or.inl (by decide))).2
     (some [{ id := "p-question", question := "d", allAnswers := ["a"],
              correctAnswers := ["a"], kind := QKind.multipleSelect }]) [] rfl⟩

theorem add_lesson_practice_source_id {lesson : LessonCtx} {url t ty : String}
    {pd : PracticeData} {d : String} {e : ExerciseNode} {ds : List Diag}
    (h : add_lesson_practice lesson url t ty pd d = Except.ok (some e, ds)) :
    e.source_id = lesson.title ++ " Practice" := by
  unfold add_lesson_practice at h
  split at h
  · cases h
  · cases h
  · cases h
    rfl

theorem append_right_ne {a b s : String} (h : a ≠ b) : a ++ s ≠ b ++ s := by
  intro hc
  apply h
  have hd : a.data ++ s.data = b.data ++ s.data := by
    have h2 := congrArg String.data hc
    simpa [String.data_append] using h2
  have h3 : a.data = b.data := List.append_cancel_right hd
  cases a
  cases b
  exact congrArg String.mk h3

/-- Claim C9: the exercise node's source id is derived from the lesson's
display title as `"<lesson title> Practice"` (line 245) — not from the
lesson's stable source id that the practice id (and hence the question ids)
are derived from (line 226) — so any two lessons anywhere in the channel
that share a title produce exercise nodes with identical source ids, even
when their lesson source ids (and so their practice ids) differ. -/
theorem C9_exercise_source_id_from_title (l1 l2 : LessonCtx)
    (url1 url2 t1 t2 ty1 ty2 : String) (pda pdb : PracticeData) (d1 d2 : String)
    (e1 e2 : ExerciseNode) (ds1 ds2 : List Diag)
    (htitle : l1.title = l2.title) (hsrc : l1.source_id ≠ l2.source_id)
    (h1 : add_lesson_practice l1 url1 t1 ty1 pda d1 = Except.ok (some e1, ds1))
    (h2 : add_lesson_practice l2 url2 t2 ty2 pdb d2 = Except.ok (some e2, ds2)) :
    e1.source_id = l1.title ++ " Practice" ∧
    e1.source_id = e2.source_id ∧
    practiceIdOf l1 ≠ practiceIdOf l2 := by
  refine ⟨add_lesson_practice_source_id h1, ?_, append_right_ne hsrc⟩
  rw [add_lesson_practice_source_id h1, add_lesson_practice_source_id h2, htitle]

/-- The `tag-cloud` payload both lessons of the C9 witness carry. -/
def pdC9 : PracticeData :=
  { options := [{ text := some "a", value := none, answer := none }],
    subQuestions := [], correctOptions := [JIdx.num 0],
    correctOption := JIdx.num 0, unit := none }

/-- Witness for C9: two lessons titled `"Intro"` with distinct source ids
get exercise nodes with the same source id `"Intro Practice"`. -/
theorem C9_exercise_source_id_from_title_witness :
    ({ source_id := "Intro Practice", title := "T", master_model := "do_all",
       randomize := false,
       questions := [{ id := "es-a-practice-question", question := "d",
                       allAnswers := ["a"], correctAnswers := ["a"],
                       kind := QKind.multipleSelect }] } : ExerciseNode).source_id =
      "Intro" ++ " Practice" ∧
    ({ source_id := "Intro Practice", title := "T", master_model := "do_all",
       randomize := false,
       questions := [{ id := "es-a-practice-question", question := "d",
                       allAnswers := ["a"], correctAnswers := ["a"],
                       kind := QKind.multipleSelect }] } : ExerciseNode).source_id =
      ({ source_id := "Intro Practice", title := "T", master_model := "do_all",
         randomize := false,
         questions := [{ id := "es-b-practice-question", question := "d",
                         allAnswers := ["a"], correctAnswers := ["a"],
                         kind := QKind.multipleSelect }] } : ExerciseNode).source_id ∧
    practiceIdOf { title := "Intro", source_id := "es-a" } ≠
      practiceIdOf { title := "Intro", source_id := "es-b" } :=
  C9_exercise_source_id_from_title
    { title := "Intro", source_id := "es-a" } { title := "Intro", source_id := "es-b" }
    "u1" "u2" "T" "T" "tag-cloud" "tag-cloud" pdC9 pdC9 "d" "d"
    _ _ [] []
    rfl (by decide) rfl rfl

theorem pyOrStr_eq_none_iff {a t : Option String} :
    pyOrStr a t = none ↔ ((a = none ∨ a = some "") ∧ t = none) := by
  unfold pyOrStr
  cases a with
  | none => simp
  | some s =>
    by_cases hs : s = "" <;> simp [hs]

theorem pyOrStr_ne_none {a t : Option String}
    (h : (∃ s, a = some s ∧ s ≠ "") ∨ t ≠ none) : pyOrStr a t ≠ none := by
  intro hc
  rw [pyOrStr_eq_none_iff] at hc
  obtain ⟨ha, ht⟩ := hc
  rcases h with ⟨s, rfl, hs⟩ | h
  · rcases ha with ha | ha
    · cases ha
    · exact hs (by injection ha)
  · exact h ht

/-- Claim C10: the question builders are partial at the option level. In the
multi-answer branch every option must carry a (non-null) text field, and in
the N-sub-question branch every nested option must have a non-empty answer
or a (non-null) text field; under these preconditions, with in-range
integer correct-option indices, the markup-stripping and index-lookup steps
never hit an error branch and the builders succeed — while an input
violating the option-level conditions makes the builder raise rather than
skip the option or still produce a question. -/
theorem C10_option_level_partiality (pd pdb : PracticeData) (subs subsb : List SubQ)
    (desc pid : String)
    (h1text : ∀ o ∈ pd.options, o.text ≠ none)
    (h1idx : ∀ c ∈ pd.correctOptions, ∃ n : ℕ,
      pyInt c = Except.ok (n : Int) ∧ n < pd.options.length)
    (h2bad : ∃ o ∈ pdb.options, o.text = none)
    (h3ok : ∀ sq ∈ subs,
      (∀ o ∈ sq.options, (∃ s, o.answer = some s ∧ s ≠ "") ∨ o.text ≠ none) ∧
      ∃ n : ℕ, pyInt sq.correctOption = Except.ok (n : Int) ∧ n < sq.options.length)
    (h4bad : ∃ sq ∈ subsb, ∃ o ∈ sq.options,
      (o.answer = none ∨ o.answer = some "") ∧ o.text = none) :
    (∃ q, add_a_multiple_select_question pd desc pid = Except.ok q) ∧
    (∃ e, add_a_multiple_select_question pdb desc pid = Except.error e) ∧
    (∃ qs, add_multiple_single_select_questions subs desc pid = Except.ok qs) ∧
    (∃ e, add_multiple_single_select_questions subsb desc pid = Except.error e) := by
  refine ⟨?_, ?_, ?_, ?_⟩
  · obtain ⟨cs, hq, _⟩ := multi_select_ok h1text h1idx
    exact ⟨_, hq⟩
  · obtain ⟨o, ho, hnone⟩ := h2bad
    obtain ⟨e, he⟩ := @mapE_error_of_mem Opt String multiAnswerOf pdb.options o ho
      (fun b => by simp [multiAnswerOf, hnone])
    refine ⟨e, ?_⟩
    unfold add_a_multiple_select_question
    rw [he]
  · have hex : ∀ sq ∈ subs, ∃ qq, buildSubQuestion desc pid sq = Except.ok qq := by
      intro sq hsq
      obtain ⟨hopts, n, hn, hlt⟩ := h3ok sq hsq
      have hA := sub_answers_ok (fun o ho => pyOrStr_ne_none (hopts o ho))
      have hlen : n <
          (sq.options.map (fun o => strip ((pyOrStr o.answer o.text).getD ""))).length := by
        rw [List.length_map]; exact hlt
      exact ⟨_, buildSubQuestion_ok hA hn hlen⟩
    obtain ⟨qs, hqs, _⟩ := mapE_ok_of_forall_ex hex
    exact ⟨qs, hqs⟩
  · obtain ⟨sq, hsq, o, ho, hbad⟩ := h4bad
    have hnone : pyOrStr o.answer o.text = none :=
      pyOrStr_eq_none_iff.mpr ⟨hbad.1, hbad.2⟩
    obtain ⟨e, he⟩ := @mapE_error_of_mem Opt String subAnswerOf sq.options o ho
      (fun b => by simp [subAnswerOf, hnone])
    have hsqfail : ∀ qq, buildSubQuestion desc pid sq ≠ Except.ok qq := by
      intro qq
      unfold buildSubQuestion
      rw [he]
      simp
    obtain ⟨e2, he2⟩ := @mapE_error_of_mem SubQ Question
      (buildSubQuestion desc pid) subsb sq hsq hsqfail
    exact ⟨e2, he2⟩

/-- The well-formed multi-select payload for the C10 witness. -/
def pdC10ok : PracticeData :=
  { options := [{ text := some "a", value := none, answer := none }],
    subQuestions := [], correctOptions := [JIdx.num 0],
    correctOption := JIdx.num 0, unit := none }

/-- The violating multi-select payload for the C10 witness: the second
option has no text key. -/
def pdC10bad : PracticeData :=
  { options := [{ text := some "a", value := none, answer := none },
                { text := none, value := some "v", answer := none }],
    subQuestions := [], correctOptions := [JIdx.num 0],
    correctOption := JIdx.num 0, unit := none }

/-- The well-formed sub-question list for the C10 witness. -/
def subsC10ok : List SubQ :=
  [{ id := "s", text := "t",
     options := [{ text := none, value := none, answer := some "yes" },
                 { text := some "no", value := none, answer := none }],
     correctOption := JIdx.num 0 }]

/-- The violating sub-question list for the C10 witness: a nested option
with an empty answer and no text. -/
def subsC10bad : List SubQ :=
  [{ id := "s", text := "t",
     options := [{ text := none, value := none, answer := some "" }],
     correctOption := JIdx.num 0 }]

/-- Witness for C10: the satisfying payloads build, the violating ones
raise. -/
theorem C10_option_level_partiality_witness :
    (∃ q, add_a_multiple_select_question pdC10ok "d" "p" = Except.ok q) ∧
    (∃ e, add_a_multiple_select_question pdC10bad "d" "p" = Except.error e) ∧
    (∃ qs, add_multiple_single_select_questions subsC10ok "d" "p" = Except.ok qs) ∧
    (∃ e, add_multiple_single_select_questions subsC10bad "d" "p" = Except.error e) :=
  C10_option_level_partiality pdC10ok pdC10bad subsC10ok subsC10bad "d" "p"
    (by intro o ho; fin_cases ho; simp [pdC10ok])
    (by intro c hc
        fin_cases hc
        exact ⟨0, rfl, by decide⟩)
    ⟨{ text := none, value := some "v", answer := none }, by decide, rfl⟩
    (by intro sq hsq
        fin_cases hsq
        refine ⟨?_, 0, rfl, by decide⟩
        intro o ho
        fin_cases ho
        · exact Or.inl ⟨"yes", rfl, by decide⟩
        · exact Or.inr (by simp [subsC10ok]))
    ⟨{ id := "s", text := "t",
       options := [{ text := none, value := none, answer := some "" }],
       correctOption := JIdx.num 0 }, by decide,
     { text := none, value := none, answer := some "" }, by decide,
     Or.inr rfl, rfl⟩

end Sushichef
